import Mathlib

/-!
# Verification of the auction-item classification pipeline

Shallow embedding of the classification pipeline of this repository:

* `src/scrapers/category_indicators.py` — taxonomy keys and indicator lexicons;
* `src/scrapers/groq_classifier.py` — the v2 `GroqTableClassifier`
  (pre-filter, keyword chain, AI-answer validation, fallback, statistics);
* `src/groq_classifier.py` — the legacy `GroqTableClassifier`
  (opportunity pre-filter, AI multi-category parsing, item mutation).

Python strings are modelled as `String` processed as `List Char`; Python
dicts used as counters are modelled as association lists; the single
external HTTP call is modelled by an explicit `GroqOutcome` oracle value
passed to `classify`, so that `classify` is a pure function of the item,
the oracle answer and the statistics state.
-/

namespace Scraper

/-! ## Python string primitives

The inputs of interest are lower-cased / accent-normalized ASCII text, so the
ASCII `Char.toLower` and the six-character Python whitespace class are the
faithful interpretation of `str.lower`, `str.strip` and `str.split()`.
-/

/-- Python whitespace class used by `str.strip()` / `str.split()` / regex `\s`. -/
def isPySpace (c : Char) : Bool :=
  c = ' ' || c = '\t' || c = '\n' || c = '\r' || c = '\x0b' || c = '\x0c'

/-- `str.strip()` on a list of characters. -/
def stripList (l : List Char) : List Char :=
  ((l.dropWhile isPySpace).reverse.dropWhile isPySpace).reverse

/-- Python `s.strip()`. -/
def pyStrip (s : String) : String := String.mk (stripList s.toList)

/-- Python `s.lower()` (ASCII case folding). -/
def pyLower (s : String) : String := String.mk (s.toList.map Char.toLower)

/-- Does `needle` occur as a contiguous sublist of `haystack`? -/
def infixOf (needle : List Char) : List Char → Bool
  | [] => needle.isPrefixOf []
  | c :: t => needle.isPrefixOf (c :: t) || infixOf needle t

/-- Python `sub in s` (substring containment). -/
def strContains (s sub : String) : Bool := infixOf sub.toList s.toList

/-- Python `s[:n]` (slicing by characters). -/
def pyTake (n : Nat) (s : String) : String := String.mk (s.toList.take n)

/-- First whitespace-separated token of a string (`s.split()[0]`); `""` if none. -/
def firstToken (s : String) : String :=
  String.mk ((s.toList.dropWhile isPySpace).takeWhile (fun c => !isPySpace c))

/-- Python `s.split(sep)` for a one-character separator: `"" → [""]`,
separators at the ends produce empty segments. -/
def splitChar (sep : Char) : List Char → List (List Char)
  | [] => [[]]
  | c :: t =>
    if c = sep then [] :: splitChar sep t
    else
      match splitChar sep t with
      | [] => [[c]]
      | s :: rest => (c :: s) :: rest

/-- Insertion into a sorted list of strings (lexicographic order). -/
def insertSorted (a : String) : List String → List String
  | [] => [a]
  | b :: t => if a ≤ b then a :: b :: t else b :: insertSorted a t

/-- Python `sorted(xs)` on strings: the order is total, so the sorted list is
the unique ascending reordering. -/
def pySorted (xs : List String) : List String :=
  xs.foldr insertSorted []

/-! ## `src/scrapers/category_indicators.py`

`TABLES_INFO` is a dict from category id to a payload of human description and
keyword list.  The v2 classifier code consults only its *keys* (the membership
test `response_clean in TABLES_INFO`); the `desc`/`keywords` payloads are never
read on any code path of the claims, so the embedding records the key list in
source order. -/

/-- The keys of `TABLES_INFO`, in source order. -/
def TABLES_INFO_keys : List String :=
  ["tecnologia", "eletrodomesticos", "bens_consumo", "veiculos",
   "alimentos_bebidas", "moveis_decoracao", "casa_utilidades",
   "artes_colecionismo", "imoveis", "materiais_construcao",
   "industrial_equipamentos", "maquinas_pesadas_agricolas", "nichados",
   "partes_pecas", "animais", "sucatas_residuos", "diversos"]

/-- `MIXED_LOT_CATEGORY_INDICATORS`. -/
def MIXED_LOT_CATEGORY_INDICATORS : List (String × List String) :=
  [("tecnologia", ["notebook", "tablet", "smartphone", "impressora", "monitor", "telefone", "celular"]),
   ("eletrodomesticos", ["geladeira", "fogao", "microondas", "micro-ondas", "tv", "televisao", "lavadora", "bebedouro"]),
   ("moveis", ["sofa", "mesa", "cadeira", "armario", "cama"]),
   ("casa_utilidades", ["panela", "prato", "copo", "talher"]),
   ("veiculos", ["carro", "moto", "caminhao", "bicicleta"]),
   ("imoveis", ["casa", "apartamento", "terreno"])]

/-- `FINANCIAL_ABSTRACT_KEYWORDS`. -/
def FINANCIAL_ABSTRACT_KEYWORDS : List String :=
  ["cotas sociais", "acoes", "ações", "expectativa de direito",
   "direito creditorio", "direitos creditorios", "credito de",
   "emprestimo compulsorio", "marca registrada", "registro de marca",
   "marca devidamente registrada", "inpi", "titulo patrimonial",
   "titulo de clube", "propriedade intelectual", "patente"]

/-! ## The external call, shared by both classifier variants

`_call_groq` has the same shape in `src/groq_classifier.py` and
`src/scrapers/groq_classifier.py`: the single external HTTP request is
modelled by a `GroqOutcome` oracle describing what the network did, and
`call_groq` maps it to the `Optional[str]` the source returns (every failure
branch, including a raised exception, yields `None` to the caller — no
exception escapes the method). -/

inductive GroqOutcome where
  /-- `requests.post` raised (connection error, timeout) or the response body
  was malformed JSON / had an unexpected shape, so an exception was caught. -/
  | exn
  /-- HTTP completed with `status_code ≠ 200`. -/
  | status (code : Nat)
  /-- HTTP 200 but `data.get('choices')` missing or empty. -/
  | emptyChoices
  /-- HTTP 200 with `choices[0].message.content` present. -/
  | ok (content : String)
  deriving DecidableEq

/-- `_call_groq`: the content stripped on success, `None` on every failure. -/
def call_groq : GroqOutcome → Option String
  | .exn => none
  | .status _ => none
  | .emptyChoices => none
  | .ok content => some (pyStrip content)

/-- `d[k] = d.get(k, 0) + 1` on an association-list model of a Python dict
used as a counter. -/
def bumpTable (t : List (String × Nat)) (k : String) : List (String × Nat) :=
  if t.any (fun p => p.1 = k) then
    t.map (fun p => if p.1 = k then (p.1, p.2 + 1) else p)
  else t ++ [(k, 1)]

/-! ## `src/scrapers/groq_classifier.py` — the v2 `GroqTableClassifier` -/

namespace V2

/-- The classification input: a dict with (at most) the keys read by the v2
classifier, `normalized_title` and `description`; `item.get(k, '')` on a
missing key is the empty string. -/
structure Item where
  normalized_title : String := ""
  description : String := ""
  deriving DecidableEq

/-- `_is_financial_abstract`: matches `FINANCIAL_ABSTRACT_KEYWORDS` against
the lower-cased `normalized_title + ' ' + description` (full description). -/
def is_financial_abstract (item : Item) : Bool :=
  let text := pyLower (item.normalized_title ++ " " ++ item.description)
  FINANCIAL_ABSTRACT_KEYWORDS.any (fun kw => strContains text kw)

/-! ### The comma-enumeration pattern of `_is_obvious_mixed_lot`

`re.search(r'\w+\s*,\s*\w+.*,\s*\w+', title)`: a word character, optional
whitespace, a comma, optional whitespace, a word character, any characters
(`.` does not match a newline), a comma, optional whitespace, a word
character — anywhere in the title.  Because the regex only needs to match
*somewhere*, each `\w+` can be taken of length one (shrinking a `\w+` run to
its last character preserves the match), which the staged matchers below
implement; `.` absorbs `\w*.*`. -/

/-- Python regex `\w` on ASCII text: letters, digits, underscore. -/
def isWordChar (c : Char) : Bool := c.isAlphanum || c = '_'

/-- Matcher for the tail `\s*\w`. -/
def matchSpacesWord : List Char → Bool
  | [] => false
  | c :: t => isWordChar c || (isPySpace c && matchSpacesWord t)

/-- Matcher for the tail `.*,\s*\w` (`.` excludes newline). -/
def matchDotsCommaWord : List Char → Bool
  | [] => false
  | c :: t => (c = ',' && matchSpacesWord t) || (c ≠ '\n' && matchDotsCommaWord t)

/-- Matcher for the tail `\s*\w.*,\s*\w`. -/
def matchSpacesWordTail : List Char → Bool
  | [] => false
  | c :: t => (isWordChar c && matchDotsCommaWord t) || (isPySpace c && matchSpacesWordTail t)

/-- Matcher for the tail `\s*,\s*\w.*,\s*\w`. -/
def matchSpacesCommaTail : List Char → Bool
  | [] => false
  | c :: t => (c = ',' && matchSpacesWordTail t) || (isPySpace c && matchSpacesCommaTail t)

/-- `re.search(r'\w+\s*,\s*\w+.*,\s*\w+', s)`: three or more comma-separated
words somewhere in `s`. -/
def commaListPattern : List Char → Bool
  | [] => false
  | c :: t => (isWordChar c && matchSpacesCommaTail t) || commaListPattern t

/-- The set of keys of `MIXED_LOT_CATEGORY_INDICATORS` with an indicator hit
in `title` (`categories_found`); the keys are pairwise distinct, so the size
of the Python set is the number of hit table entries. -/
def mixedCategoriesFound (title : String) : Nat :=
  (MIXED_LOT_CATEGORY_INDICATORS.filter
    (fun p => p.2.any (fun ind => strContains title ind))).length

/-- `_is_obvious_mixed_lot`: a comma enumeration of three or more items in the
lower-cased `normalized_title`, with indicator hits in at least two different
categories of `MIXED_LOT_CATEGORY_INDICATORS`. -/
def is_obvious_mixed_lot (item : Item) : Bool :=
  let title := pyLower item.normalized_title
  if !commaListPattern title.toList then false
  else decide (2 ≤ mixedCategoriesFound title)

/-! ### `_try_obvious_classification`

The keyword pre-classifier is a chain of sixteen category blocks evaluated in
a fixed priority order over `text = (title + ' ' + description).lower()`; a
block fires when one of its keywords is a substring of `text` (three blocks
additionally require that none of an inline exclusion list occurs).  The
keyword lists below are the local lists of the function, in source order;
`*_guard` names the inline exclusion list of the corresponding block. -/

def imovel_kw : List String :=
  ["apartamento", "casa ", "terreno", "lote ", "sala comercial",
   "galpao", "imovel", "propriedade", " m2", " m²", "metro quadrado",
   "quarto", "suite", "vaga ", "garagem", "fazenda", "sitio", "chacara",
   "edificio", "cobertura", "kitnet", "studio", "flat", "condominio",
   "area rural", "area urbana"]

def imovel_guard : List String := ["peca", "componente", "miniatura", "brinquedo"]

def veiculo_kw : List String :=
  ["carro ", "automovel", "veiculo", " moto ", "motocicleta",
   "caminhao", "onibus", " van ", "pickup", "bicicleta", "bike ",
   "jet ski", "lancha", "barco", "aviao", "aeronave", "helicoptero",
   "fiat ", "ford ", "chevrolet", "honda ", "toyota", "volkswagen",
   "hyundai", "renault", "nissan", "peugeot",
   "civic", "corolla", "gol ", "uno ", "palio", "onix", "hb20",
   "sandero", "logan", "cg 150", "cg 160", "fan ", "titan"]

def veiculo_guard : List String := ["peca", "motor (peca)", "bateria (peca)", "miniatura"]

def nichado_kw : List String :=
  ["medicamento", "farmacia", "farmaceutico", "produto de higiene",
   "higiene hospitalar", "produto hospitalar", "vitamina",
   "material hospitalar", "insumo medico",
   "odontologic", "cadeira odontologic", "dentista", "consultorio odontologico",
   "equipo odontologico", "autoclave", "raio x dental", "kavo", "gnatus",
   "equipamento medico", "hospitalar", "maca", "mesa cirurgica",
   "desfibrilador", "monitor de sinais", "clinica",
   "veterinario", "clinica veterinaria", "mesa veterinaria",
   "depilacao laser", "criolipilise", "radiofrequencia", "estetica profissional",
   "fogao industrial", "geladeira industrial", "refrigerador industrial",
   "cozinha industrial", "cozinha profissional", "forno industrial",
   "fogao 6 bocas", "coifa industrial", "camara fria", "freezer industrial",
   "balcao refrigerado", "mesa inox", "pia inox", "bancada inox",
   "equipamento gastronomico", "pass through",
   "laboratorio", "centrifuga", "microscopio", "balanca analitica"]

def tech_kw : List String :=
  ["notebook", "computador", "impressora", "smartphone", "celular",
   "tablet", "iphone", "ipad", "samsung galaxy", "servidor",
   "monitor ", "camera digital", "drone ", "videogame", "console",
   "xbox", "playstation", "smartwatch", "roteador", "switch ",
   "mouse", "teclado", "webcam", "ssd ", "hd externo", "pendrive"]

def eletro_kw : List String :=
  ["geladeira", "refrigerador", "fogao ", "microondas", "micro-ondas",
   "lavadora", "secadora", "lava e seca", "ar condicionado",
   "ventilador", "purificador", " tv ", "televisao", "smart tv",
   "air fryer", "fritadeira eletrica", "aspirador", "cafeteira",
   "liquidificador", "batedeira", "ferro de passar"]

def eletro_guard : List String := ["industrial", "6 bocas", "profissional", "inox"]

def moveis_kw : List String :=
  ["sofa", "mesa ", "cadeira", "poltrona", "armario", "guarda-roupa",
   "cama ", "colchao", "estante", "rack ", "criado-mudo", "comoda",
   "aparador", "buffet", "escrivaninha", "puff", "banqueta",
   "lustres", "luminaria", "quadro decoracao", "espelho", "tapete",
   "cortina", "persiana", "carpete"]

def utilidades_kw : List String :=
  ["panela", "frigideira", "assadeira", "prato", "tigela", "bowl",
   "talher", "garfo", "faca ", "colher", "copo ", "xicara", "caneca",
   "jarra", "marmita", "pote ", "organizador domestico", "cesto",
   "vassoura", "rodo", "balde", "varal", "tabua de corte",
   "kit churrasco"]

def consumo_kw : List String :=
  ["roupa", "calcado", "sapato", "tenis", "bolsa", "mochila",
   "carteira", "oculos", "relogio", "joia", "colar", "anel",
   "brinco", "pulseira", "perfume", "cosmetico", "maquiagem",
   "mala ", "valise", "bone ", "chapeu", "cachecol", "cinto"]

def alimentos_kw : List String :=
  ["vinho", "whisky", "cerveja", "cafe ", "cha ", "suco ",
   "refrigerante", "agua mineral", "suplemento alimentar",
   "proteina", "whey", "barra de cereal", "chocolate"]

def construcao_kw : List String :=
  ["cimento", "tijolo", "bloco", "telha", "piso ", "porcelanato",
   "ceramica", "azulejo", "revestimento", "porta ", "janela",
   "fechadura", "tinta ", "verniz", "tubo ", "cano ", "torneira",
   "registro", "madeira", "tabua ", "viga", "areia ", "brita",
   "vergalhao", "ferro ", "aco ",
   "cortadeira de piso", "serra marmore", "disco de corte",
   "furadeira", "parafusadeira", "nivel", "prumo"]

def industrial_kw : List String :=
  ["torno", "fresadora", "prensa", "compressor industrial",
   "gerador", "transformador", "motor industrial",
   "bomba industrial", "maquina cnc", "serra industrial",
   "furadeira industrial", "lixadeira industrial",
   "esmerilhadeira", "injetora", "extrusora", "caldeira",
   "forno industrial", "equipamento de producao", "linha de producao",
   "esteira transportadora", "compactador", "compactador de lixo",
   "coletor de lixo", "caminhao compactador"]

def maquinas_kw : List String :=
  ["retroescavadeira", "escavadeira", "pa carregadeira",
   "motoniveladora", "rolo compactador", "patrol",
   "trator agricola", "colheitadeira", "plantadeira",
   "pulverizador", "grade agricola", "arado", "semeadeira",
   "rocadeira", "empilhadeira", "bobcat", "minicarregadeira",
   "terraplenagem"]

def pecas_kw : List String :=
  ["peca ", "pecas ", "componente", "reposicao", "sobressalente",
   "motor (peca)", "engrenagem", "rolamento", "correia",
   "filtro ", "vela ", "bateria (peca)", "alternador",
   "radiador", "pneu", "aro ", "disco de freio", "pastilha",
   "amortecedor", "suspensao", "cambio (peca)", "embreagem"]

def animais_kw : List String :=
  ["gado", " boi ", " vaca ", "novilho", "touro", "cavalo",
   "egua", "potro", "jumento", "porco", "suino", "galinha",
   "frango", "pato", "ovelha", "carneiro", "cabra", "caprino",
   "ovino", "ave ", "animal vivo", "plantel"]

def sucatas_kw : List String :=
  ["sucata", "residuo", "reciclavel", "descarte", "ferro velho",
   "metal sucata", "aluminio sucata", "cobre sucata", "lata",
   "papelao", "plastico sucata", "eletronica sucata",
   "bateria usada", "aparas", "refugo", "resto", "sobra"]

def artes_kw : List String :=
  ["quadro arte", "pintura", "escultura", "estatua",
   "obra de arte", "antiguidade", "moeda antiga", "selo",
   "colecao", "colecionavel", "raridade", "vintage",
   "retro", "reliquia", "porcelana antiga", "cristal antigo"]

/-- The priority chain of `_try_obvious_classification` over the local
`text = (title + ' ' + description).lower()`, from block 1 (imoveis) to
block 16 (artes_colecionismo); `none` models the final `return None`. -/
def try_obvious_chain (text : String) : Option String :=
  if imovel_kw.any (strContains text) && !(imovel_guard.any (strContains text)) then
    some "imoveis"
  else if veiculo_kw.any (strContains text) && !(veiculo_guard.any (strContains text)) then
    some "veiculos"
  else if nichado_kw.any (strContains text) then some "nichados"
  else if tech_kw.any (strContains text) then some "tecnologia"
  else if eletro_kw.any (strContains text) && !(eletro_guard.any (strContains text)) then
    some "eletrodomesticos"
  else if moveis_kw.any (strContains text) then some "moveis_decoracao"
  else if utilidades_kw.any (strContains text) then some "casa_utilidades"
  else if consumo_kw.any (strContains text) then some "bens_consumo"
  else if alimentos_kw.any (strContains text) then some "alimentos_bebidas"
  else if construcao_kw.any (strContains text) then some "materiais_construcao"
  else if industrial_kw.any (strContains text) then some "industrial_equipamentos"
  else if maquinas_kw.any (strContains text) then some "maquinas_pesadas_agricolas"
  else if pecas_kw.any (strContains text) then some "partes_pecas"
  else if animais_kw.any (strContains text) then some "animais"
  else if sucatas_kw.any (strContains text) then some "sucatas_residuos"
  else if artes_kw.any (strContains text) then some "artes_colecionismo"
  else none

/-- `_try_obvious_classification`. -/
def try_obvious_classification (title description : String) : Option String :=
  try_obvious_chain (pyLower (title ++ " " ++ description))

/-! ### The keyword chain viewed as a priority scan

`SCat` enumerates the sixteen category blocks of
`_try_obvious_classification` in their source priority order.  `kwList`,
`guardList` and `catId` recover each block's keyword list, inline exclusion
list and returned category id, so that claims about scores, ties and
priority can be stated. -/

inductive SCat where
  | imoveis | veiculos | nichados | tecnologia | eletrodomesticos
  | moveis_decoracao | casa_utilidades | bens_consumo | alimentos_bebidas
  | materiais_construcao | industrial_equipamentos | maquinas_pesadas_agricolas
  | partes_pecas | animais | sucatas_residuos | artes_colecionismo
  deriving DecidableEq, Fintype

def kwList : SCat → List String
  | .imoveis => imovel_kw
  | .veiculos => veiculo_kw
  | .nichados => nichado_kw
  | .tecnologia => tech_kw
  | .eletrodomesticos => eletro_kw
  | .moveis_decoracao => moveis_kw
  | .casa_utilidades => utilidades_kw
  | .bens_consumo => consumo_kw
  | .alimentos_bebidas => alimentos_kw
  | .materiais_construcao => construcao_kw
  | .industrial_equipamentos => industrial_kw
  | .maquinas_pesadas_agricolas => maquinas_kw
  | .partes_pecas => pecas_kw
  | .animais => animais_kw
  | .sucatas_residuos => sucatas_kw
  | .artes_colecionismo => artes_kw

def guardList : SCat → List String
  | .imoveis => imovel_guard
  | .veiculos => veiculo_guard
  | .eletrodomesticos => eletro_guard
  | _ => []

def catId : SCat → String
  | .imoveis => "imoveis"
  | .veiculos => "veiculos"
  | .nichados => "nichados"
  | .tecnologia => "tecnologia"
  | .eletrodomesticos => "eletrodomesticos"
  | .moveis_decoracao => "moveis_decoracao"
  | .casa_utilidades => "casa_utilidades"
  | .bens_consumo => "bens_consumo"
  | .alimentos_bebidas => "alimentos_bebidas"
  | .materiais_construcao => "materiais_construcao"
  | .industrial_equipamentos => "industrial_equipamentos"
  | .maquinas_pesadas_agricolas => "maquinas_pesadas_agricolas"
  | .partes_pecas => "partes_pecas"
  | .animais => "animais"
  | .sucatas_residuos => "sucatas_residuos"
  | .artes_colecionismo => "artes_colecionismo"

/-- The priority order of the sixteen blocks in the source. -/
def prio : List SCat :=
  [.imoveis, .veiculos, .nichados, .tecnologia, .eletrodomesticos,
   .moveis_decoracao, .casa_utilidades, .bens_consumo, .alimentos_bebidas,
   .materiais_construcao, .industrial_equipamentos, .maquinas_pesadas_agricolas,
   .partes_pecas, .animais, .sucatas_residuos, .artes_colecionismo]

/-- Number of lexicon terms of a block occurring in the text (each term
counted once): the occurrence count of the keyword-scorer claims. -/
def score (c : SCat) (text : String) : Nat :=
  (kwList c).countP (fun kw => strContains text kw)

/-- Does some keyword of the block occur in the text? -/
def anyKw (c : SCat) (text : String) : Bool :=
  (kwList c).any (strContains text)

/-- Does the block's inline exclusion list stay silent on the text? -/
def guardOk (c : SCat) (text : String) : Bool :=
  !(guardList c).any (strContains text)

/-- The firing condition of a block: a keyword hit not vetoed by the guard. -/
def guardedMatch (c : SCat) (text : String) : Bool :=
  anyKw c text && guardOk c text

/-! ### The AI stage (`_classify_with_groq`) -/

/-- The cleaning of the raw answer in `_classify_with_groq`:
`response.strip().lower()` then `.replace('\n', ' ')` then removal of every
`','`, `';'`, `'.'`. -/
def cleanResponse (response : String) : String :=
  String.mk ((((pyLower (pyStrip response)).toList.map
      (fun c => if c = '\n' then ' ' else c)).filter
      (fun c => !(c = ',' || c = ';' || c = '.'))))

/-- The fixed synonym/alias table (`mappings`) of `_classify_with_groq`,
in source order. -/
def mappings : List (String × String) :=
  [("imovel", "imoveis"), ("propriedade", "imoveis"),
   ("casa", "imoveis"), ("apartamento", "imoveis"),
   ("veiculo", "veiculos"), ("carro", "veiculos"), ("moto", "veiculos"),
   ("tecnologias", "tecnologia"), ("tech", "tecnologia"),
   ("eletrodomestico", "eletrodomesticos"), ("eletro", "eletrodomesticos"),
   ("movel", "moveis_decoracao"), ("moveis", "moveis_decoracao"),
   ("utilidades", "casa_utilidades"), ("utilidade", "casa_utilidades"),
   ("consumo", "bens_consumo"), ("bens", "bens_consumo"),
   ("alimento", "alimentos_bebidas"), ("bebida", "alimentos_bebidas"),
   ("construcao", "materiais_construcao"), ("material", "materiais_construcao"),
   ("industrial", "industrial_equipamentos"), ("equipamento", "industrial_equipamentos"),
   ("maquina", "maquinas_pesadas_agricolas"), ("maquinas", "maquinas_pesadas_agricolas"),
   ("agricola", "maquinas_pesadas_agricolas"), ("agricolas", "maquinas_pesadas_agricolas"),
   ("nichado", "nichados"), ("peca", "partes_pecas"), ("pecas", "partes_pecas"),
   ("animal", "animais"), ("sucata", "sucatas_residuos"),
   ("arte", "artes_colecionismo"), ("colecionismo", "artes_colecionismo")]

/-- Validation of a raw answer: clean it, keep the first whitespace token,
accept an exact taxonomy key, otherwise consult `mappings`, otherwise
`None`.  An empty token covers both the source's `'' if not response_clean`
branch and the `split()[0]` IndexError on an all-whitespace cleaned answer
(the exception is caught and turned into `None`). -/
def validateResponse (response : String) : Option String :=
  let token := firstToken (cleanResponse response)
  if token = "" then none
  else if TABLES_INFO_keys.contains token then some token
  else (mappings.find? (fun p => p.1 = token)).map Prod.snd

/-- `_classify_with_groq`: call, then validate; `None` when the call failed. -/
def classify_with_groq (o : GroqOutcome) : Option String :=
  match call_groq o with
  | none => none
  | some response => validateResponse response

/-! ### Statistics and the orchestrator (`classify`)

`self.stats` is a dict of counters plus the `by_table` dict; `by_table` is
modelled as an association list with Python-dict update semantics via
`bumpTable`. -/

structure Stats where
  total : Nat := 0
  pre_classified : Nat := 0
  groq_classifications : Nat := 0
  financial_blocked : Nat := 0
  mixed_detected : Nat := 0
  failed : Nat := 0
  by_table : List (String × Nat) := []
  deriving DecidableEq

def initStats : Stats := {}

/-- `classify`: the v2 orchestrator.  Returns the category
(`None` for an empty title), the updated statistics and the item as the
caller sees it afterwards (the v2 source never writes to `item`, so it is
returned unchanged on every path).  The locals
`title = item.get('normalized_title', '').strip()` and
`description = item.get('description', '')[:500]` of the source are inlined;
the `print` calls only produce logging and are omitted. -/
def classify (s : Stats) (item : Item) (o : GroqOutcome) :
    Option String × Stats × Item :=
  if pyStrip item.normalized_title = "" then
    (none, { s with failed := s.failed + 1, total := s.total + 1 }, item)
  else if is_financial_abstract item then
    (some "diversos",
     { s with financial_blocked := s.financial_blocked + 1,
              by_table := bumpTable s.by_table "diversos",
              total := s.total + 1 }, item)
  else if is_obvious_mixed_lot item then
    (some "diversos",
     { s with mixed_detected := s.mixed_detected + 1,
              by_table := bumpTable s.by_table "diversos",
              total := s.total + 1 }, item)
  else
    match try_obvious_classification (pyStrip item.normalized_title)
        (pyTake 500 item.description) with
    | some obvious_category =>
        (some obvious_category,
         { s with pre_classified := s.pre_classified + 1,
                  by_table := bumpTable s.by_table obvious_category,
                  total := s.total + 1 }, item)
    | none =>
        match classify_with_groq o with
        | some table_name =>
            (some table_name,
             { s with groq_classifications := s.groq_classifications + 1,
                      by_table := bumpTable s.by_table table_name,
                      total := s.total + 1 }, item)
        | none =>
            (some "diversos",
             { s with failed := s.failed + 1,
                      by_table := bumpTable s.by_table "diversos",
                      total := s.total + 1 }, item)

/-- The classification result alone; it does not depend on the statistics. -/
def classifyResult (item : Item) (o : GroqOutcome) : Option String :=
  (classify initStats item o).1

/-- Fold of `classify` over a batch of (item, oracle answer) pairs,
threading the statistics as the one classifier instance does. -/
def classifyAll (s : Stats) : List (Item × GroqOutcome) → Stats
  | [] => s
  | (item, o) :: rest => classifyAll (classify s item o).2.1 rest

/-- Sum of the five per-stage counters. -/
def stageSum (s : Stats) : Nat :=
  s.pre_classified + s.groq_classifications + s.financial_blocked +
    s.mixed_detected + s.failed

/-- Sum of the per-category counters of `by_table`. -/
def tableSum (s : Stats) : Nat := (s.by_table.map Prod.snd).sum

end V2

/-! ## `src/groq_classifier.py` — the legacy `GroqTableClassifier`

The legacy variant routes "opportunity" items (existing bids, many bidders,
large quantities, second-auction or mixed-lot phrases) to `oportunidades`,
lets the AI return several comma-separated categories, and *writes*
`_categories` / `_primary_category` keys onto the input item when more than
one category is valid. -/

namespace V1

/-- Keys of the class-level `TABLES_INFO` of the legacy classifier,
in source order (the `desc`/`exemplos`/`pilar` payloads feed only the prompt
text and the statistics printer, which are not consulted here). -/
def TABLES_INFO_keys : List String :=
  ["bens_consumo", "eletrodomesticos", "tecnologia", "veiculos",
   "moveis_decoracao", "casa_utilidades", "artes_colecionismo",
   "alimentos_bebidas", "imoveis", "materiais_construcao",
   "industrial_equipamentos", "maquinas_pesadas_agricolas", "nichados",
   "partes_pecas", "animais", "sucatas_residuos", "diversos", "oportunidades"]

/-- A legacy input item.  `_categories` / `_primary_category` model the
underscore-prefixed keys the classifier may write onto the dict; `none`
means the key is absent. -/
structure Item where
  title : String := ""
  description : String := ""
  total_bids : Nat := 0
  total_bidders : Nat := 0
  _categories : Option (List String) := none
  _primary_category : Option String := none
  deriving DecidableEq

/-- Numeric value of a digit run (`int` on the captured group). -/
def digitsToNat (l : List Char) : Nat :=
  l.foldl (fun n c => n * 10 + (c.toNat - '0'.toNat)) 0

/-! ### The three quantity regexes of `_is_opportunity_item`

Each scanner returns the value of capture group 1 of the *leftmost* match
(`re.search` examines only the first match), or `none`.  The text is already
lower-cased, so `re.IGNORECASE` has no effect.  In each pattern a greedy
`\s+`/`\s*`/`[:\s]+` run is followed by a literal that cannot begin with a
character of the class, so backtracking never helps and the scanners consume
maximal runs. -/

/-- Unit-word alternation `(?:unidades|unids?|peças|pçs|itens|produtos)`
matching at the front of the remaining text. -/
def unitWordAt (l : List Char) : Bool :=
  ["unidades", "unids", "unid", "peças", "pçs", "itens", "produtos"].any
    (fun u => u.toList.isPrefixOf l)

/-- `re.search(r'(\d+)\s*(?:unidades|unids?|peças|pçs|itens|produtos)', text)`:
the leftmost digit run followed (after optional whitespace) by a unit word;
group 1 is that digit run. -/
def scanQtyUnits : List Char → Option Nat
  | [] => none
  | c :: t =>
    if c.isDigit then
      let run := (c :: t).takeWhile Char.isDigit
      let rest := ((c :: t).dropWhile Char.isDigit).dropWhile isPySpace
      if unitWordAt rest then some (digitsToNat run) else scanQtyUnits t
    else scanQtyUnits t

/-- After `lote`: `\s+(?:com|de)\s+(\d+)`. -/
def loteTail (l : List Char) : Option Nat :=
  let spaces := l.takeWhile isPySpace
  if spaces.isEmpty then none
  else
    let afterSpace := l.dropWhile isPySpace
    let tryWord : String → Option Nat := fun w =>
      if w.toList.isPrefixOf afterSpace then
        let r := afterSpace.drop w.length
        let sp2 := r.takeWhile isPySpace
        if sp2.isEmpty then none
        else
          let digits := (r.dropWhile isPySpace).takeWhile Char.isDigit
          if digits.isEmpty then none else some (digitsToNat digits)
      else none
    (tryWord "com").orElse (fun _ => tryWord "de")

/-- `re.search(r'lote\s+(?:com|de)\s+(\d+)', text)`. -/
def scanQtyLote : List Char → Option Nat
  | [] => none
  | c :: t =>
    (if "lote".toList.isPrefixOf (c :: t) then loteTail ((c :: t).drop 4)
     else none).orElse (fun _ => scanQtyLote t)

/-- After `quantidade`: `[:\s]+(\d+)`. -/
def quantidadeTail (l : List Char) : Option Nat :=
  let clsChar : Char → Bool := fun c => c = ':' || isPySpace c
  let cls := l.takeWhile clsChar
  if cls.isEmpty then none
  else
    let digits := (l.dropWhile clsChar).takeWhile Char.isDigit
    if digits.isEmpty then none else some (digitsToNat digits)

/-- `re.search(r'quantidade[:\s]+(\d+)', text)`. -/
def scanQtyQuantidade : List Char → Option Nat
  | [] => none
  | c :: t =>
    (if "quantidade".toList.isPrefixOf (c :: t) then quantidadeTail ((c :: t).drop 10)
     else none).orElse (fun _ => scanQtyQuantidade t)

def segunda_praca_keywords : List String :=
  ["segunda praça", "2ª praça", "2a praça", "segunda praca",
   "novo pregão", "nova tentativa"]

def lote_misto_keywords : List String :=
  ["lote misto", "lote variado", "itens diversos", "diversos itens",
   "mercadorias variadas", "produtos variados", "sortidos", "mix de"]

/-- `_is_opportunity_item`: (is it an opportunity, reason).  The three
quantity patterns are tried in source order; a pattern whose first match is
below 10 units does not return, the loop moves to the next pattern. -/
def is_opportunity_item (item : Item) : Bool × String :=
  let text := pyLower item.title ++ " " ++ pyLower item.description
  if item.total_bids > 0 then
    (true, "tem_lances (" ++ toString item.total_bids ++ ")")
  else if item.total_bidders ≥ 3 then
    (true, "muitos_compradores (" ++ toString item.total_bidders ++ ")")
  else
    match (scanQtyUnits text.toList).filter (fun q => q ≥ 10) with
    | some qty => (true, "muitas_unidades (" ++ toString qty ++ ")")
    | none =>
      match (scanQtyLote text.toList).filter (fun q => q ≥ 10) with
      | some qty => (true, "muitas_unidades (" ++ toString qty ++ ")")
      | none =>
        match (scanQtyQuantidade text.toList).filter (fun q => q ≥ 10) with
        | some qty => (true, "muitas_unidades (" ++ toString qty ++ ")")
        | none =>
          if segunda_praca_keywords.any (strContains text) then
            (true, "segunda_praca")
          else if lote_misto_keywords.any (strContains text) then
            (true, "lote_misto")
          else (false, "")

structure Stats where
  total : Nat := 0
  success : Nat := 0
  failed : Nat := 0
  auto_oportunidades : Nat := 0
  diversos : Nat := 0
  by_table : List (String × Nat) := []
  oportunidades_reasons : List (String × Nat) := []
  diversos_combinations : List (String × Nat) := []
  deriving DecidableEq

def initStats : Stats := {}

/-- `_classify_with_groq` (legacy): strip/lower the answer, keep the first
line, split on commas, strip each part, keep the parts that are taxonomy
keys other than `diversos`/`oportunidades`; on success it increments
`success` and `total` itself and returns the first valid category together
with the whole list. -/
def classify_with_groq (s : Stats) (o : GroqOutcome) :
    Option (String × List String) × Stats :=
  match call_groq o with
  | none => (none, s)
  | some response =>
    let response_clean := (pyLower (pyStrip response)).toList.takeWhile (fun c => c ≠ '\n')
    let categories := (splitChar ',' response_clean).map (fun seg => pyStrip (String.mk seg))
    let valid_categories := categories.filter
      (fun cat => TABLES_INFO_keys.contains cat &&
        !(cat = "diversos" || cat = "oportunidades"))
    match valid_categories with
    | [] => (none, s)
    | c :: _ =>
      (some (c, valid_categories),
       { s with success := s.success + 1, total := s.total + 1 })

/-- `classify` (legacy): empty title returns `None` touching nothing;
opportunity items go to `oportunidades`; a multi-category AI answer goes to
`diversos` *and writes `_categories`/`_primary_category` onto the item*; a
single category goes to its table; otherwise the fallback is
`oportunidades`. -/
def classify (s : Stats) (item : Item) (o : GroqOutcome) :
    Option String × Stats × Item :=
  let title := pyStrip item.title
  if title = "" then (none, s, item)
  else
    let opp := is_opportunity_item item
    if opp.1 then
      (some "oportunidades",
       { s with auto_oportunidades := s.auto_oportunidades + 1,
                by_table := bumpTable s.by_table "oportunidades",
                oportunidades_reasons := bumpTable s.oportunidades_reasons opp.2,
                total := s.total + 1 }, item)
    else
      match classify_with_groq s o with
      | (some (table_name, categories), s1) =>
        if categories.length > 1 then
          let combo := String.intercalate "+" (pySorted categories)
          (some "diversos",
           { s1 with diversos := s1.diversos + 1,
                     by_table := bumpTable s1.by_table "diversos",
                     diversos_combinations := bumpTable s1.diversos_combinations combo },
           { item with _categories := some categories,
                       _primary_category := some (categories.headD "") })
        else
          (some table_name,
           { s1 with success := s1.success + 1,
                     by_table := bumpTable s1.by_table table_name }, item)
      | (none, s1) =>
        (some "oportunidades",
         { s1 with failed := s1.failed + 1, total := s1.total + 1 }, item)

end V1

/-! ## Helper lemmas -/

namespace V2

/-- The possible outputs of the keyword chain, in priority order. -/
def scorerOutputs : List String :=
  ["imoveis", "veiculos", "nichados", "tecnologia", "eletrodomesticos",
   "moveis_decoracao", "casa_utilidades", "bens_consumo", "alimentos_bebidas",
   "materiais_construcao", "industrial_equipamentos", "maquinas_pesadas_agricolas",
   "partes_pecas", "animais", "sucatas_residuos", "artes_colecionismo"]

lemma try_obvious_chain_eq_find (text : String) :
    try_obvious_chain text =
      (prio.find? (fun c => guardedMatch c text)).map catId := by
  have e1 : guardedMatch SCat.imoveis text = (imovel_kw.any (strContains text) && !imovel_guard.any (strContains text)) := rfl
  have e2 : guardedMatch SCat.veiculos text = (veiculo_kw.any (strContains text) && !veiculo_guard.any (strContains text)) := rfl
  have e3 : guardedMatch SCat.nichados text = (nichado_kw.any (strContains text) && true) := rfl
  have e4 : guardedMatch SCat.tecnologia text = (tech_kw.any (strContains text) && true) := rfl
  have e5 : guardedMatch SCat.eletrodomesticos text = (eletro_kw.any (strContains text) && !eletro_guard.any (strContains text)) := rfl
  have e6 : guardedMatch SCat.moveis_decoracao text = (moveis_kw.any (strContains text) && true) := rfl
  have e7 : guardedMatch SCat.casa_utilidades text = (utilidades_kw.any (strContains text) && true) := rfl
  have e8 : guardedMatch SCat.bens_consumo text = (consumo_kw.any (strContains text) && true) := rfl
  have e9 : guardedMatch SCat.alimentos_bebidas text = (alimentos_kw.any (strContains text) && true) := rfl
  have e10 : guardedMatch SCat.materiais_construcao text = (construcao_kw.any (strContains text) && true) := rfl
  have e11 : guardedMatch SCat.industrial_equipamentos text = (industrial_kw.any (strContains text) && true) := rfl
  have e12 : guardedMatch SCat.maquinas_pesadas_agricolas text = (maquinas_kw.any (strContains text) && true) := rfl
  have e13 : guardedMatch SCat.partes_pecas text = (pecas_kw.any (strContains text) && true) := rfl
  have e14 : guardedMatch SCat.animais text = (animais_kw.any (strContains text) && true) := rfl
  have e15 : guardedMatch SCat.sucatas_residuos text = (sucatas_kw.any (strContains text) && true) := rfl
  have e16 : guardedMatch SCat.artes_colecionismo text = (artes_kw.any (strContains text) && true) := rfl
  unfold try_obvious_chain prio
  cases h1 : (imovel_kw.any (strContains text) && !imovel_guard.any (strContains text)) with
  | true =>
      simp only [List.find?_cons, e1, e2, e3, e4, e5, e6, e7, e8, e9, e10, e11, e12, e13, e14, e15, e16, Bool.and_true, h1]
      rfl
  | false =>
    cases h2 : (veiculo_kw.any (strContains text) && !veiculo_guard.any (strContains text)) with
    | true =>
        simp only [List.find?_cons, e1, e2, e3, e4, e5, e6, e7, e8, e9, e10, e11, e12, e13, e14, e15, e16, Bool.and_true, h1, h2]
        rfl
    | false =>
      cases h3 : nichado_kw.any (strContains text) with
      | true =>
          simp only [List.find?_cons, e1, e2, e3, e4, e5, e6, e7, e8, e9, e10, e11, e12, e13, e14, e15, e16, Bool.and_true, h1, h2, h3]
          rfl
      | false =>
        cases h4 : tech_kw.any (strContains text) with
        | true =>
            simp only [List.find?_cons, e1, e2, e3, e4, e5, e6, e7, e8, e9, e10, e11, e12, e13, e14, e15, e16, Bool.and_true, h1, h2, h3, h4]
            rfl
        | false =>
          cases h5 : (eletro_kw.any (strContains text) && !eletro_guard.any (strContains text)) with
          | true =>
              simp only [List.find?_cons, e1, e2, e3, e4, e5, e6, e7, e8, e9, e10, e11, e12, e13, e14, e15, e16, Bool.and_true, h1, h2, h3, h4, h5]
              rfl
          | false =>
            cases h6 : moveis_kw.any (strContains text) with
            | true =>
                simp only [List.find?_cons, e1, e2, e3, e4, e5, e6, e7, e8, e9, e10, e11, e12, e13, e14, e15, e16, Bool.and_true, h1, h2, h3, h4, h5, h6]
                rfl
            | false =>
              cases h7 : utilidades_kw.any (strContains text) with
              | true =>
                  simp only [List.find?_cons, e1, e2, e3, e4, e5, e6, e7, e8, e9, e10, e11, e12, e13, e14, e15, e16, Bool.and_true, h1, h2, h3, h4, h5, h6, h7]
                  rfl
              | false =>
                cases h8 : consumo_kw.any (strContains text) with
                | true =>
                    simp only [List.find?_cons, e1, e2, e3, e4, e5, e6, e7, e8, e9, e10, e11, e12, e13, e14, e15, e16, Bool.and_true, h1, h2, h3, h4, h5, h6, h7, h8]
                    rfl
                | false =>
                  cases h9 : alimentos_kw.any (strContains text) with
                  | true =>
                      simp only [List.find?_cons, e1, e2, e3, e4, e5, e6, e7, e8, e9, e10, e11, e12, e13, e14, e15, e16, Bool.and_true, h1, h2, h3, h4, h5, h6, h7, h8, h9]
                      rfl
                  | false =>
                    cases h10 : construcao_kw.any (strContains text) with
                    | true =>
                        simp only [List.find?_cons, e1, e2, e3, e4, e5, e6, e7, e8, e9, e10, e11, e12, e13, e14, e15, e16, Bool.and_true, h1, h2, h3, h4, h5, h6, h7, h8, h9, h10]
                        rfl
                    | false =>
                      cases h11 : industrial_kw.any (strContains text) with
                      | true =>
                          simp only [List.find?_cons, e1, e2, e3, e4, e5, e6, e7, e8, e9, e10, e11, e12, e13, e14, e15, e16, Bool.and_true, h1, h2, h3, h4, h5, h6, h7, h8, h9, h10, h11]
                          rfl
                      | false =>
                        cases h12 : maquinas_kw.any (strContains text) with
                        | true =>
                            simp only [List.find?_cons, e1, e2, e3, e4, e5, e6, e7, e8, e9, e10, e11, e12, e13, e14, e15, e16, Bool.and_true, h1, h2, h3, h4, h5, h6, h7, h8, h9, h10, h11, h12]
                            rfl
                        | false =>
                          cases h13 : pecas_kw.any (strContains text) with
                          | true =>
                              simp only [List.find?_cons, e1, e2, e3, e4, e5, e6, e7, e8, e9, e10, e11, e12, e13, e14, e15, e16, Bool.and_true, h1, h2, h3, h4, h5, h6, h7, h8, h9, h10, h11, h12, h13]
                              rfl
                          | false =>
                            cases h14 : animais_kw.any (strContains text) with
                            | true =>
                                simp only [List.find?_cons, e1, e2, e3, e4, e5, e6, e7, e8, e9, e10, e11, e12, e13, e14, e15, e16, Bool.and_true, h1, h2, h3, h4, h5, h6, h7, h8, h9, h10, h11, h12, h13, h14]
                                rfl
                            | false =>
                              cases h15 : sucatas_kw.any (strContains text) with
                              | true =>
                                  simp only [List.find?_cons, e1, e2, e3, e4, e5, e6, e7, e8, e9, e10, e11, e12, e13, e14, e15, e16, Bool.and_true, h1, h2, h3, h4, h5, h6, h7, h8, h9, h10, h11, h12, h13, h14, h15]
                                  rfl
                              | false =>
                                cases h16 : artes_kw.any (strContains text) with
                                | true =>
                                    simp only [List.find?_cons, e1, e2, e3, e4, e5, e6, e7, e8, e9, e10, e11, e12, e13, e14, e15, e16, Bool.and_true, h1, h2, h3, h4, h5, h6, h7, h8, h9, h10, h11, h12, h13, h14, h15, h16]
                                    rfl
                                | false =>
                                  simp only [List.find?_cons, List.find?_nil, e1, e2, e3, e4, e5, e6, e7, e8, e9, e10, e11, e12, e13, e14, e15, e16, Bool.and_true, h1, h2, h3, h4, h5, h6, h7, h8, h9, h10, h11, h12, h13, h14, h15, h16]
                                  rfl

lemma try_obvious_chain_mem {text : String} {c : String}
    (h : try_obvious_chain text = some c) : c ∈ scorerOutputs := by
  rw [try_obvious_chain_eq_find] at h
  obtain ⟨sc, hsc, hcat⟩ := Option.map_eq_some'.mp h
  have hall : ∀ x ∈ prio, catId x ∈ scorerOutputs := by decide
  exact hcat ▸ hall sc (List.mem_of_find?_eq_some hsc)

lemma try_obvious_mem {title description : String} {c : String}
    (h : try_obvious_classification title description = some c) :
    c ∈ scorerOutputs :=
  try_obvious_chain_mem h

lemma validateResponse_mem {r c : String} (h : validateResponse r = some c) :
    c ∈ TABLES_INFO_keys := by
  unfold validateResponse at h
  dsimp only [] at h
  split at h
  · cases h
  split at h
  · injection h with h
    exact h ▸ List.mem_of_elem_eq_true (by assumption)
  · obtain ⟨p, hp, hpc⟩ := Option.map_eq_some'.mp h
    have hmem := List.mem_of_find?_eq_some hp
    have hall : ∀ q ∈ mappings, q.2 ∈ TABLES_INFO_keys := by decide
    exact hpc ▸ hall p hmem

lemma classify_with_groq_mem {o : GroqOutcome} {c : String}
    (h : classify_with_groq o = some c) : c ∈ TABLES_INFO_keys := by
  unfold classify_with_groq at h
  split at h
  · cases h
  · exact validateResponse_mem h

end V2

/-! ## Claims -/

open V2 in
/-- C1.  Totality: for every item whose `normalized_title` is non-empty after
stripping, the v2 `classify` returns a category id that is a key of
`TABLES_INFO`, whatever the external service did; it never returns no result
and never a string outside the taxonomy. -/
theorem C1_totality (item : V2.Item) (o : GroqOutcome)
    (h : pyStrip item.normalized_title ≠ "") :
    ∃ c, V2.classifyResult item o = some c ∧ c ∈ TABLES_INFO_keys := by
  unfold classifyResult classify
  split
  · exact absurd (by assumption) h
  split
  · exact ⟨"diversos", rfl, by decide⟩
  split
  · exact ⟨"diversos", rfl, by decide⟩
  split
  · next c heq =>
      refine ⟨c, rfl, ?_⟩
      have hall : ∀ x ∈ scorerOutputs, x ∈ TABLES_INFO_keys := by decide
      exact hall c (try_obvious_mem heq)
  split
  · next c heq => exact ⟨c, rfl, classify_with_groq_mem heq⟩
  · exact ⟨"diversos", rfl, by decide⟩

/-- C1 witness: a concrete keyword-free item with a failing service call is
still classified inside the taxonomy (to the fallback `diversos`). -/
theorem C1_totality_witness :
    ∃ c, V2.classifyResult { normalized_title := "zzz" } GroqOutcome.exn = some c ∧
      c ∈ TABLES_INFO_keys :=
  C1_totality { normalized_title := "zzz" } GroqOutcome.exn (by decide)

open V2 in
/-- C2 counterexample: the item `{normalized_title: '', description: 'acoes'}`
has a financial keyword in its title-plus-description text, yet `classify`
returns `None` (empty stripped title), not the catch-all `'diversos'`. -/
theorem C2_counterexample :
    V2.is_financial_abstract { normalized_title := "", description := "acoes" } = true ∧
    ¬ V2.classifyResult { normalized_title := "", description := "acoes" }
        GroqOutcome.exn = some "diversos" := by
  constructor
  · decide
  · decide

open V2 in
/-- C2 (amended).  For every item whose stripped title is non-empty, if the
financial/abstract lexicon matches the title-plus-description text, `classify`
returns `'diversos'` whatever the keyword chain would say and whatever the
external service answers (the result holds for every oracle value `o`). -/
theorem C2_financial_priority (item : V2.Item) (o : GroqOutcome)
    (h1 : pyStrip item.normalized_title ≠ "")
    (h2 : V2.is_financial_abstract item = true) :
    V2.classifyResult item o = some "diversos" := by
  unfold classifyResult classify
  rw [if_neg h1, if_pos h2]

/-- C2 witness: a concrete financial item, with the service answering a
different category, is still routed to `'diversos'`. -/
theorem C2_financial_priority_witness :
    V2.classifyResult { normalized_title := "1200 acoes preferenciais" }
      (GroqOutcome.ok "veiculos") = some "diversos" :=
  C2_financial_priority { normalized_title := "1200 acoes preferenciais" }
    (GroqOutcome.ok "veiculos") (by decide) (by decide)

open V2 in
/-- C3.  Mixed-lot precision: `_is_obvious_mixed_lot` fires only when the
comma-enumeration pattern matches the title AND the indicator table hits at
least two distinct categories; and whenever the indicator hits fall in at
most one category the rule declines — the mixed-lot branch of `classify`
is not taken (its `mixed_detected` counter is untouched), so the item falls
through to the later stages. -/
theorem C3_mixed_lot_precision (item : V2.Item) :
    (V2.is_obvious_mixed_lot item = true →
      commaListPattern (pyLower item.normalized_title).toList = true ∧
      2 ≤ mixedCategoriesFound (pyLower item.normalized_title)) ∧
    (mixedCategoriesFound (pyLower item.normalized_title) ≤ 1 →
      V2.is_obvious_mixed_lot item = false ∧
      ∀ (s : V2.Stats) (o : GroqOutcome),
        ((V2.classify s item o).2.1).mixed_detected = s.mixed_detected) := by
  constructor
  · intro h
    unfold is_obvious_mixed_lot at h
    dsimp only [] at h
    split at h
    · cases h
    · next hnp =>
        refine ⟨by simpa using hnp, by simpa using h⟩
  · intro hle
    have hmfalse : V2.is_obvious_mixed_lot item = false := by
      unfold is_obvious_mixed_lot
      dsimp only []
      split
      · rfl
      · simp only [decide_eq_false_iff_not]
        omega
    refine ⟨hmfalse, fun s o => ?_⟩
    unfold classify
    rw [hmfalse]
    repeat' split
    all_goals simp_all

open V2 in
/-- C3 witness: `"notebook, tablet, smartphone"` enumerates three items by
commas but all indicator hits are technology, so the mixed-lot rule declines
and the mixed counter stays at zero. -/
theorem C3_mixed_lot_precision_witness :
    V2.is_obvious_mixed_lot { normalized_title := "notebook, tablet, smartphone" } = false ∧
    ((V2.classify V2.initStats { normalized_title := "notebook, tablet, smartphone" }
        GroqOutcome.exn).2.1).mixed_detected = 0 := by
  have h := (C3_mixed_lot_precision
    { normalized_title := "notebook, tablet, smartphone" }).2 (by decide)
  exact ⟨h.1, h.2 V2.initStats GroqOutcome.exn⟩

open V2 in
/-- C8.  ServiceError recovery: when the earlier stages decline and the
external call fails (an exception — transport error, timeout, malformed
body — or a non-2xx status), `classify` still returns the catch-all
`'diversos'` and increments the fallback counter `failed`; the embedding of
`_call_groq` is a total function, reflecting that the caught exception never
propagates to the caller. -/
theorem C8_service_error_recovery (item : V2.Item) (o : GroqOutcome) (s : V2.Stats)
    (h1 : pyStrip item.normalized_title ≠ "")
    (h2 : V2.is_financial_abstract item = false)
    (h3 : V2.is_obvious_mixed_lot item = false)
    (h4 : V2.try_obvious_classification (pyStrip item.normalized_title)
            (pyTake 500 item.description) = none)
    (h5 : o = GroqOutcome.exn ∨ ∃ code, o = GroqOutcome.status code) :
    (V2.classify s item o).1 = some "diversos" ∧
    ((V2.classify s item o).2.1).failed = s.failed + 1 := by
  have hgroq : V2.classify_with_groq o = none := by
    rcases h5 with h | ⟨code, h⟩ <;> subst h <;> rfl
  unfold classify
  rw [h2, h3, h4, hgroq]
  repeat' split
  all_goals simp_all

/-- C8 witness: a keyword-free item with a raising service call lands in the
fallback with the counter incremented. -/
theorem C8_service_error_recovery_witness :
    (V2.classify V2.initStats { normalized_title := "zzz" } GroqOutcome.exn).1 =
      some "diversos" ∧
    ((V2.classify V2.initStats { normalized_title := "zzz" }
        GroqOutcome.exn).2.1).failed = 1 :=
  C8_service_error_recovery { normalized_title := "zzz" } GroqOutcome.exn V2.initStats
    (by decide) (by decide) (by decide) (by decide) (Or.inl rfl)

namespace V2

lemma mem_prio (c : SCat) : c ∈ prio := by cases c <;> decide

lemma guardedMatch_eq_false_of_score_eq_zero {c : SCat} {text : String}
    (h : score c text = 0) : guardedMatch c text = false := by
  have hany : anyKw c text = false := by
    unfold score at h
    unfold anyKw
    rw [List.any_eq_false]
    intro kw hkw
    exact List.countP_eq_zero.mp h kw hkw
  unfold guardedMatch
  rw [hany]
  rfl

lemma find?_eq_some_of_unique {α : Type} {p : α → Bool} {c : α} {l : List α}
    (hc : c ∈ l) (hp : p c = true) (hothers : ∀ x, x ≠ c → p x = false) :
    l.find? p = some c := by
  induction l with
  | nil => cases hc
  | cons a t ih =>
      rw [List.find?_cons]
      by_cases ha : a = c
      · subst ha
        rw [hp]
      · rw [hothers a ha]
        exact ih (by
          rcases List.mem_cons.mp hc with h | h
          · exact absurd h.symm ha
          · exact h)

end V2

open V2 in
/-- C4 counterexample: on `"notebook computador sofa poltrona"` the categories
`tecnologia` and `moveis_decoracao` tie for the maximal occurrence count 2
(at the claimed threshold), yet the keyword chain does not decline — it
returns `tecnologia`. -/
theorem C4_counterexample :
    score SCat.tecnologia (pyLower ("notebook computador sofa poltrona" ++ " " ++ "")) = 2 ∧
    score SCat.moveis_decoracao (pyLower ("notebook computador sofa poltrona" ++ " " ++ "")) = 2 ∧
    (∀ c, score c (pyLower ("notebook computador sofa poltrona" ++ " " ++ "")) ≤ 2) ∧
    V2.try_obvious_classification "notebook computador sofa poltrona" "" =
      some "tecnologia" := by
  refine ⟨by decide, by decide, by decide, by decide⟩

open V2 in
/-- C4 (amended).  When two distinct categories tie for the maximal
occurrence count at or above 2 and the first of them passes its exclusion
guard, the keyword chain does not decline because of the tie: its result is
the priority-order scan — the first category of `prio` with a guarded
keyword hit — and it is a decision (`isSome`). -/
theorem C4_tie_resolved_by_priority (title description : String) (c1 c2 : SCat)
    (hne : c1 ≠ c2)
    (htie : score c1 (pyLower (title ++ " " ++ description)) =
            score c2 (pyLower (title ++ " " ++ description)))
    (hmax : ∀ c, score c (pyLower (title ++ " " ++ description)) ≤
            score c1 (pyLower (title ++ " " ++ description)))
    (hth : 2 ≤ score c1 (pyLower (title ++ " " ++ description)))
    (hguard : guardedMatch c1 (pyLower (title ++ " " ++ description)) = true) :
    (V2.try_obvious_classification title description).isSome = true ∧
    V2.try_obvious_classification title description =
      (prio.find? (fun c => guardedMatch c (pyLower (title ++ " " ++ description)))).map
        catId := by
  have heq : V2.try_obvious_classification title description =
      (prio.find? (fun c => guardedMatch c (pyLower (title ++ " " ++ description)))).map
        catId := try_obvious_chain_eq_find _
  refine ⟨?_, heq⟩
  rw [heq, Option.isSome_map']
  exact List.find?_isSome.mpr ⟨c1, mem_prio c1, hguard⟩

open V2 in
/-- C4 witness: the tie of the counterexample input instantiates the amended
theorem; the scan picks `tecnologia`, the earlier of the tied categories. -/
theorem C4_tie_resolved_by_priority_witness :
    (V2.try_obvious_classification "notebook computador sofa poltrona" "").isSome = true ∧
    V2.try_obvious_classification "notebook computador sofa poltrona" "" =
      (prio.find? (fun c =>
        guardedMatch c (pyLower ("notebook computador sofa poltrona" ++ " " ++ "")))).map
        catId :=
  C4_tie_resolved_by_priority "notebook computador sofa poltrona" ""
    SCat.tecnologia SCat.moveis_decoracao (by decide) (by decide) (by decide)
    (by decide) (by decide)

open V2 in
/-- C5 counterexample: `"balde"` gives its best category
(`casa_utilidades`) a single, ordinary keyword match — every category scores
at most 1 — yet the keyword chain accepts it instead of declining. -/
theorem C5_counterexample :
    score SCat.casa_utilidades (pyLower ("balde" ++ " " ++ "")) = 1 ∧
    (∀ c, score c (pyLower ("balde" ++ " " ++ "")) ≤ 1) ∧
    V2.try_obvious_classification "balde" "" = some "casa_utilidades" := by
  refine ⟨by decide, by decide, by decide⟩

open V2 in
/-- C5 (amended).  The keyword chain has no minimum-match threshold: a single
keyword hit is accepted for every category.  In particular, when one category
is the only one with any lexicon hit and it passes its exclusion guard, the
chain returns exactly that category. -/
theorem C5_single_match_accepted (title description : String) (c : SCat)
    (honly : ∀ c', c' ≠ c → score c' (pyLower (title ++ " " ++ description)) = 0)
    (hguard : guardedMatch c (pyLower (title ++ " " ++ description)) = true) :
    V2.try_obvious_classification title description = some (catId c) := by
  have heq : V2.try_obvious_classification title description =
      (prio.find? (fun c' => guardedMatch c' (pyLower (title ++ " " ++ description)))).map
        catId := try_obvious_chain_eq_find _
  rw [heq, find?_eq_some_of_unique (mem_prio c) hguard
    (fun x hx => guardedMatch_eq_false_of_score_eq_zero (honly x hx))]
  rfl

open V2 in
/-- C5 witness: the single-match input `"balde"` is accepted as
`casa_utilidades` by the amended theorem. -/
theorem C5_single_match_accepted_witness :
    V2.try_obvious_classification "balde" "" = some (catId SCat.casa_utilidades) :=
  C5_single_match_accepted "balde" "" SCat.casa_utilidades (by decide) (by decide)

open V2 in
/-- C9 counterexample: for the keyword-free item `"qqq"` with the service
answering `"diversos"`, `classify` returns the catch-all *through the AI
stage* (`groq_classifications` is incremented, none of the pre-filter or
fallback counters is), so the catch-all is reachable outside the pre-filter
rules and the fallback. -/
theorem C9_counterexample :
    V2.classifyResult { normalized_title := "qqq" } (GroqOutcome.ok "diversos") =
      some "diversos" ∧
    ((V2.classify V2.initStats { normalized_title := "qqq" }
        (GroqOutcome.ok "diversos")).2.1).groq_classifications = 1 ∧
    ((V2.classify V2.initStats { normalized_title := "qqq" }
        (GroqOutcome.ok "diversos")).2.1).financial_blocked = 0 ∧
    ((V2.classify V2.initStats { normalized_title := "qqq" }
        (GroqOutcome.ok "diversos")).2.1).mixed_detected = 0 ∧
    ((V2.classify V2.initStats { normalized_title := "qqq" }
        (GroqOutcome.ok "diversos")).2.1).failed = 0 := by
  refine ⟨by decide, by decide, by decide, by decide, by decide⟩

open V2 in
/-- C9 (amended).  The keyword chain never proposes the restricted catch-all:
every decision it produces differs from `'diversos'`.  The catch-all is
however also reachable through the AI stage (when the validated service
answer is `'diversos'`), not only through the pre-filter rules and the
fallback. -/
theorem C9_catchall_restriction :
    (∀ (title description c : String),
      V2.try_obvious_classification title description = some c → c ≠ "diversos") ∧
    (∃ (item : V2.Item) (o : GroqOutcome),
      (V2.classify V2.initStats item o).1 = some "diversos" ∧
      ((V2.classify V2.initStats item o).2.1).groq_classifications = 1) := by
  constructor
  · intro title description c h
    have hmem := try_obvious_mem h
    have hall : ∀ x ∈ scorerOutputs, x ≠ "diversos" := by decide
    exact hall c hmem
  · exact ⟨{ normalized_title := "qqq" }, GroqOutcome.ok "diversos", by decide, by decide⟩

/-- C9 witness: a concrete decision of the keyword chain (`"gado"` →
`animais`) is not the catch-all. -/
theorem C9_catchall_restriction_witness :
    V2.try_obvious_classification "gado" "" = some "animais" ∧
    ("animais" : String) ≠ "diversos" :=
  ⟨by decide, C9_catchall_restriction.1 "gado" "" "animais" (by decide)⟩

open V1 in
/-- C10 counterexample: the legacy `classify` mutates its input — on a
multi-category AI answer it writes the `_categories` and `_primary_category`
keys onto the item, so the caller's record afterwards differs from the
record before. -/
theorem C10_counterexample :
    (V1.classify V1.initStats { title := "smart tv samsung" }
        (GroqOutcome.ok "tecnologia,eletrodomesticos")).2.2 ≠
      ({ title := "smart tv samsung" } : V1.Item) ∧
    ((V1.classify V1.initStats { title := "smart tv samsung" }
        (GroqOutcome.ok "tecnologia,eletrodomesticos")).2.2)._categories =
      some ["tecnologia", "eletrodomesticos"] ∧
    ((V1.classify V1.initStats { title := "smart tv samsung" }
        (GroqOutcome.ok "tecnologia,eletrodomesticos")).2.2)._primary_category =
      some "tecnologia" := by
  refine ⟨by decide, by decide, by decide⟩

/-- C10 (amended).  The v2 `classify` leaves the input item unchanged on
every path; the legacy `classify` does not — it writes onto the item when the
AI answer yields more than one valid category. -/
theorem C10_input_readonly :
    (∀ (s : V2.Stats) (item : V2.Item) (o : GroqOutcome),
      (V2.classify s item o).2.2 = item) ∧
    (∃ (item : V1.Item) (o : GroqOutcome),
      (V1.classify V1.initStats item o).2.2 ≠ item) := by
  constructor
  · intro s item o
    unfold V2.classify
    repeat' split
    all_goals rfl
  · exact ⟨{ title := "smart tv samsung" },
      GroqOutcome.ok "tecnologia,eletrodomesticos", by decide⟩

namespace V2

/-- The per-pair update of `bumpTable` fixes every pair whose key differs. -/
lemma map_update_eq_self {t : List (String × Nat)} {k : String}
    (h : ∀ p ∈ t, p.1 ≠ k) :
    t.map (fun p => if p.1 = k then (p.1, p.2 + 1) else p) = t := by
  induction t with
  | nil => rfl
  | cons q t ih =>
      have hq : q.1 ≠ k := h q (List.mem_cons_self q t)
      simp only [List.map_cons, if_neg hq]
      rw [ih (fun p hp => h p (List.mem_cons_of_mem q hp))]

lemma bumpTable_keys (t : List (String × Nat)) (k : String) :
    (bumpTable t k).map Prod.fst =
      if t.any (fun p => p.1 = k) then t.map Prod.fst
      else t.map Prod.fst ++ [k] := by
  unfold bumpTable
  split
  · rw [List.map_map]
    apply List.map_congr_left
    intro p _
    by_cases hp : p.1 = k
    · simp [hp]
    · simp [hp]
  · simp

lemma bumpTable_nodup {t : List (String × Nat)} {k : String}
    (h : (t.map Prod.fst).Nodup) :
    ((bumpTable t k).map Prod.fst).Nodup := by
  rw [bumpTable_keys]
  split
  · exact h
  · next hany =>
      refine List.Nodup.append h (List.nodup_singleton k) ?_
      intro a ha hk
      rw [List.mem_singleton.mp hk] at ha
      obtain ⟨p, hp, hpk⟩ := List.mem_map.mp ha
      have hfalse := List.any_eq_false.mp (Bool.eq_false_iff.mpr hany) p hp
      simp only [decide_eq_true_eq] at hfalse
      exact hfalse hpk

lemma sum_map_update {t : List (String × Nat)} {k : String}
    (hnd : (t.map Prod.fst).Nodup) (hany : t.any (fun p => p.1 = k) = true) :
    ((t.map (fun p => if p.1 = k then (p.1, p.2 + 1) else p)).map Prod.snd).sum =
      (t.map Prod.snd).sum + 1 := by
  induction t with
  | nil => cases hany
  | cons q t ih =>
      rw [List.map_cons, List.nodup_cons] at hnd
      by_cases hq : q.1 = k
      · have hrest : ∀ p ∈ t, p.1 ≠ k := by
          intro p hp hpk
          have hmem : p.1 ∈ t.map Prod.fst := List.mem_map_of_mem Prod.fst hp
          rw [hpk, ← hq] at hmem
          exact hnd.1 hmem
        simp only [List.map_cons, if_pos hq, map_update_eq_self hrest,
          List.sum_cons]
        omega
      · have hany' : t.any (fun p => p.1 = k) = true := by
          simp only [List.any_cons, hq, decide_eq_true_eq, false_or,
            Bool.false_or, decide_eq_false_iff_not] at hany
          exact hany
        simp only [List.map_cons, if_neg hq, List.sum_cons, ih hnd.2 hany']
        omega

lemma sum_map_bumpTable {t : List (String × Nat)} {k : String}
    (hnd : (t.map Prod.fst).Nodup) :
    ((bumpTable t k).map Prod.snd).sum = (t.map Prod.snd).sum + 1 := by
  unfold bumpTable
  split
  · next hany => exact sum_map_update hnd hany
  · simp

lemma classify_total (s : Stats) (item : Item) (o : GroqOutcome) :
    ((classify s item o).2.1).total = s.total + 1 := by
  unfold classify
  repeat' split
  all_goals rfl

lemma classify_stageSum (s : Stats) (item : Item) (o : GroqOutcome) :
    stageSum ((classify s item o).2.1) = stageSum s + 1 := by
  unfold classify stageSum
  repeat' split
  all_goals (dsimp only; omega)

lemma classify_nodup {s : Stats} (item : Item) (o : GroqOutcome)
    (hnd : (s.by_table.map Prod.fst).Nodup) :
    (((classify s item o).2.1).by_table.map Prod.fst).Nodup := by
  unfold classify
  repeat' split
  all_goals (dsimp only; first | exact hnd | exact bumpTable_nodup hnd)

lemma classify_tableSum {s : Stats} (item : Item) (o : GroqOutcome)
    (hnd : (s.by_table.map Prod.fst).Nodup)
    (h : pyStrip item.normalized_title ≠ "") :
    tableSum ((classify s item o).2.1) = tableSum s + 1 := by
  unfold classify tableSum
  rw [if_neg h]
  repeat' split
  all_goals (dsimp only; exact sum_map_bumpTable hnd)

lemma classify_tableSum_empty {s : Stats} (item : Item) (o : GroqOutcome)
    (h : pyStrip item.normalized_title = "") :
    tableSum ((classify s item o).2.1) = tableSum s := by
  unfold classify tableSum
  rw [if_pos h]

lemma classifyAll_stats (inputs : List (Item × GroqOutcome)) :
    ∀ s : Stats, (s.by_table.map Prod.fst).Nodup →
      (classifyAll s inputs).total = s.total + inputs.length ∧
      stageSum (classifyAll s inputs) = stageSum s + inputs.length ∧
      ((classifyAll s inputs).by_table.map Prod.fst).Nodup ∧
      ((∀ p ∈ inputs, pyStrip p.1.normalized_title ≠ "") →
        tableSum (classifyAll s inputs) = tableSum s + inputs.length) := by
  induction inputs with
  | nil => intro s hnd; exact ⟨rfl, rfl, hnd, fun _ => rfl⟩
  | cons a t ih =>
      intro s hnd
      have hstep₁ := classify_total s a.1 a.2
      have hstep₂ := classify_stageSum s a.1 a.2
      have hstepn := classify_nodup a.1 a.2 hnd
      obtain ⟨ih₁, ih₂, ihn, ih₃⟩ := ih (classify s a.1 a.2).2.1 hstepn
      have hcons : classifyAll s (a :: t) = classifyAll (classify s a.1 a.2).2.1 t := rfl
      refine ⟨?_, ?_, ?_, ?_⟩
      · rw [hcons, ih₁, hstep₁, List.length_cons]; omega
      · rw [hcons, ih₂, hstep₂, List.length_cons]; omega
      · rw [hcons]; exact ihn
      · intro hall
        have hne : pyStrip a.1.normalized_title ≠ "" :=
          hall a (List.mem_cons_self a t)
        have hstep₃ := classify_tableSum a.1 a.2 hnd hne
        rw [hcons, ih₃ (fun p hp => hall p (List.mem_cons_of_mem a hp)),
          hstep₃, List.length_cons]
        omega

end V2

/-- C7 counterexample: one `classify` call on an empty-title item yields
`total = 1` and stage-counter sum `1`, but the `by_table` sum stays `0` —
the empty-title path increments `failed` and `total` without recording any
category, so `sum(by_table) == N` fails. -/
theorem C7_counterexample :
    (V2.classifyAll V2.initStats
      [({ normalized_title := "" }, GroqOutcome.exn)]).total = 1 ∧
    V2.stageSum (V2.classifyAll V2.initStats
      [({ normalized_title := "" }, GroqOutcome.exn)]) = 1 ∧
    V2.tableSum (V2.classifyAll V2.initStats
      [({ normalized_title := "" }, GroqOutcome.exn)]) = 0 := by
  refine ⟨by decide, by decide, by decide⟩

open V2 in
/-- C7 (amended).  Statistics conservation for the v2 classifier: after any
sequence of `N` calls on one instance, `total = N` and the per-stage counters
sum to `N`; the per-category counters of `by_table` also sum to `N` provided
every processed item had a non-empty stripped title (an empty-title call
increments `total`/`failed` but no `by_table` entry). -/
theorem C7_stats_conservation (inputs : List (V2.Item × GroqOutcome)) :
    (V2.classifyAll V2.initStats inputs).total = inputs.length ∧
    V2.stageSum (V2.classifyAll V2.initStats inputs) = inputs.length ∧
    ((∀ p ∈ inputs, pyStrip p.1.normalized_title ≠ "") →
      V2.tableSum (V2.classifyAll V2.initStats inputs) = inputs.length) := by
  obtain ⟨h₁, h₂, _, h₃⟩ := classifyAll_stats inputs initStats (by decide)
  refine ⟨?_, ?_, fun hall => ?_⟩
  · simpa [initStats] using h₁
  · simpa [stageSum, initStats] using h₂
  · simpa [tableSum, initStats] using h₃ hall

/-- C7 witness: a batch of two valid items conserves all three sums. -/
theorem C7_stats_conservation_witness :
    (V2.classifyAll V2.initStats
      [({ normalized_title := "zzz" }, GroqOutcome.exn),
       ({ normalized_title := "carro gol 2015" }, GroqOutcome.exn)]).total = 2 ∧
    V2.stageSum (V2.classifyAll V2.initStats
      [({ normalized_title := "zzz" }, GroqOutcome.exn),
       ({ normalized_title := "carro gol 2015" }, GroqOutcome.exn)]) = 2 ∧
    V2.tableSum (V2.classifyAll V2.initStats
      [({ normalized_title := "zzz" }, GroqOutcome.exn),
       ({ normalized_title := "carro gol 2015" }, GroqOutcome.exn)]) = 2 := by
  have h := C7_stats_conservation
    [({ normalized_title := "zzz" }, GroqOutcome.exn),
     ({ normalized_title := "carro gol 2015" }, GroqOutcome.exn)]
  exact ⟨h.1, h.2.1, h.2.2 (by decide)⟩



lemma toList_append (a b : String) : (a ++ b).toList = a.toList ++ b.toList := by
  cases a; cases b; rfl

lemma toList_mk (l : List Char) : (String.mk l).toList = l := rfl

lemma mk_toList (s : String) : String.mk s.toList = s := rfl

namespace V2

/-- Characters that survive every cleaning step of `_classify_with_groq`
unchanged and are not whitespace: the shape of every taxonomy key. -/
def plainToken (l : List Char) : Bool :=
  !l.isEmpty && l.all (fun c =>
    !isPySpace c && !(c = ',' || c = ';' || c = '.') && !(c = '\n') &&
      Char.toLower c = c)

lemma dropWhile_append_left {p : Char → Bool} {L M : List Char}
    (hL : L ≠ []) (hall : ∀ a ∈ L, p a = false) :
    (L ++ M).dropWhile p = L ++ M := by
  cases L with
  | nil => exact absurd rfl hL
  | cons a L' =>
      rw [List.cons_append, List.dropWhile_cons, if_neg]
      simp [hall a (List.mem_cons_self a L')]

lemma clean3_plain {L : List Char}
    (hall : ∀ c ∈ L, (!isPySpace c && !(c = ',' || c = ';' || c = '.') && !(c = '\n') &&
      Char.toLower c = c) = true) :
    ((L.map Char.toLower).map (fun c => if c = '\n' then ' ' else c)).filter
        (fun c => !(c = ',' || c = ';' || c = '.')) = L := by
  induction L with
  | nil => rfl
  | cons a t ih =>
      have ha := hall a (List.mem_cons_self a t)
      simp only [Bool.and_eq_true, decide_eq_true_eq, Bool.not_eq_true'] at ha
      obtain ⟨⟨⟨hsp, hpunct⟩, hnl⟩, hlow⟩ := ha
      simp only [List.map_cons, hlow]
      rw [show (if a = '\n' then ' ' else a) = a from if_neg (by simpa using hnl)]
      rw [List.filter_cons, if_pos (by simp [hpunct])]
      rw [ih (fun c hc => hall c (List.mem_cons_of_mem a hc))]

lemma clean3_cons_dot (l : List Char) :
    ((('.' :: l).map Char.toLower).map (fun c => if c = '\n' then ' ' else c)).filter
        (fun c => !(c = ',' || c = ';' || c = '.')) =
      ((l.map Char.toLower).map (fun c => if c = '\n' then ' ' else c)).filter
        (fun c => !(c = ',' || c = ';' || c = '.')) := by
  simp only [List.map_cons, show Char.toLower '.' = '.' from rfl]
  rw [show (if ('.' : Char) = '\n' then ' ' else '.') = '.' from rfl]
  rw [List.filter_cons, if_neg (by decide)]

lemma clean3_cons_space (l : List Char) :
    (((' ' :: l).map Char.toLower).map (fun c => if c = '\n' then ' ' else c)).filter
        (fun c => !(c = ',' || c = ';' || c = '.')) =
      ' ' :: ((l.map Char.toLower).map (fun c => if c = '\n' then ' ' else c)).filter
        (fun c => !(c = ',' || c = ';' || c = '.')) := by
  simp only [List.map_cons, show Char.toLower ' ' = ' ' from rfl]
  rw [show (if (' ' : Char) = '\n' then ' ' else ' ') = ' ' from rfl]
  rw [List.filter_cons, if_pos (by decide)]

/-- Stripping `cat + '. ' + rest` keeps `cat` intact at the front: the result
is `cat` plus `'.'` plus the reversal of the space-trimmed tail. -/
lemma stripList_plain_dot (L R : List Char) (hL : L ≠ [])
    (hsp : ∀ a ∈ L, isPySpace a = false) :
    stripList (L ++ '.' :: ' ' :: R) =
      L ++ '.' :: (List.dropWhile isPySpace (R.reverse ++ [' '])).reverse := by
  unfold stripList
  rw [dropWhile_append_left hL hsp]
  have hrev : (L ++ '.' :: ' ' :: R).reverse =
      (R.reverse ++ [' ']) ++ ('.' :: L.reverse) := by
    simp
  rw [hrev]
  have hC : List.dropWhile isPySpace ((R.reverse ++ [' ']) ++ ('.' :: L.reverse)) =
      (List.dropWhile isPySpace (R.reverse ++ [' '])) ++ ('.' :: L.reverse) := by
    rw [List.dropWhile_append]
    split
    · next hemp =>
        rw [List.isEmpty_iff.mp hemp]
        rw [List.nil_append, List.dropWhile_cons, if_neg (by decide)]
    · rfl
  rw [hC]
  simp

/-- The trimmed tail is empty or ends in the inserted space. -/
lemma dropWhile_tail_shape (R : List Char) :
    List.dropWhile isPySpace (R.reverse ++ [' ']) = [] ∨
    ∃ D, List.dropWhile isPySpace (R.reverse ++ [' ']) = D ++ [' '] := by
  rw [List.dropWhile_append]
  split
  · left
    rw [List.dropWhile_cons, if_pos (by decide)]
    rfl
  · right
    exact ⟨List.dropWhile isPySpace R.reverse, rfl⟩

/-- Core of C6: cleaning `cat + '. ' + rest` and taking the first token
recovers `cat`, for any plain-token `cat` and arbitrary `rest`. -/
lemma firstToken_clean_append (cat rest : String)
    (hgood : plainToken cat.toList = true) :
    firstToken (cleanResponse (cat ++ ". " ++ rest)) = cat := by
  unfold plainToken at hgood
  rw [Bool.and_eq_true, List.all_eq_true] at hgood
  obtain ⟨hne', hall⟩ := hgood
  have hne : cat.toList ≠ [] := by
    intro h
    rw [h] at hne'
    cases hne'
  have hsp : ∀ a ∈ cat.toList, isPySpace a = false := by
    intro a ha
    have hprops := hall a ha
    simp only [Bool.and_eq_true, Bool.not_eq_true'] at hprops
    exact hprops.1.1.1
  have htl : (cat ++ ". " ++ rest).toList =
      cat.toList ++ '.' :: ' ' :: rest.toList := by
    rw [toList_append, toList_append,
      show (". " : String).toList = ['.', ' '] from rfl, List.append_assoc]
    rfl
  unfold cleanResponse pyStrip pyLower firstToken
  simp only [toList_mk]
  rw [htl, stripList_plain_dot cat.toList rest.toList hne hsp]
  rw [List.map_append, List.map_append, List.filter_append]
  rw [clean3_plain hall]
  rcases dropWhile_tail_shape rest.toList with hsh | ⟨D, hsh⟩
  · rw [hsh, show (([] : List Char)).reverse = [] from rfl, clean3_cons_dot]
    rw [show ((([] : List Char).map Char.toLower).map
        (fun c => if c = '\n' then ' ' else c)).filter
        (fun c => !(c = ',' || c = ';' || c = '.')) = [] from rfl]
    rw [dropWhile_append_left hne hsp]
    rw [List.takeWhile_append_of_pos (by intro a ha; simp [hsp a ha])]
    rw [show List.takeWhile (fun c => !isPySpace c) ([] : List Char) = [] from rfl,
      List.append_nil]
    exact mk_toList cat
  · rw [hsh, List.reverse_append,
      show ([' '] : List Char).reverse = [' '] from rfl, List.singleton_append]
    rw [clean3_cons_dot, clean3_cons_space]
    rw [dropWhile_append_left hne hsp]
    rw [List.takeWhile_append_of_pos (by intro a ha; simp [hsp a ha])]
    rw [List.takeWhile_cons, if_neg (by decide), List.append_nil]
    exact mk_toList cat

end V2


open V2 in
/-- C6.  AI response normalization: the validator accepts every canonical
taxonomy key as itself; maps every alias of the synonym table to its
canonical id; reports no decision on an answer that is neither; and strips
trailing punctuation and arbitrary trailing explanation text from a
canonical key — so a canonical id, an aliased synonym of it, and the id
followed by punctuation/explanation all normalize to the same canonical
category id. -/
theorem C6_response_normalization :
    (∀ cat ∈ TABLES_INFO_keys, V2.validateResponse cat = some cat) ∧
    (∀ p ∈ V2.mappings, V2.validateResponse p.1 = some p.2) ∧
    (∀ cat ∈ TABLES_INFO_keys, V2.validateResponse (cat ++ ".") = some cat) ∧
    V2.validateResponse "resposta que nao e categoria" = none ∧
    (∀ cat ∈ TABLES_INFO_keys, ∀ rest : String,
      V2.validateResponse (cat ++ ". " ++ rest) = some cat) := by
  refine ⟨by decide, by decide, by decide, by decide, ?_⟩
  intro cat hcat rest
  have hgood : plainToken cat.toList = true := by
    have hk : ∀ c ∈ TABLES_INFO_keys, plainToken c.toList = true := by decide
    exact hk cat hcat
  have hne : ¬(cat = "") := by
    have hk : ∀ c ∈ TABLES_INFO_keys, ¬(c = "") := by decide
    exact hk cat hcat
  have hcontains : TABLES_INFO_keys.contains cat = true := by
    have hk : ∀ c ∈ TABLES_INFO_keys, TABLES_INFO_keys.contains c = true := by decide
    exact hk cat hcat
  unfold validateResponse
  dsimp only []
  rw [firstToken_clean_append cat rest hgood, if_neg hne, if_pos hcontains]

/-- C6 witness: the canonical id `imoveis`, its alias `imovel`, the id with
trailing punctuation, and the id followed by explanation text all normalize
to `imoveis`. -/
theorem C6_response_normalization_witness :
    V2.validateResponse "imoveis" = some "imoveis" ∧
    V2.validateResponse "imovel" = some "imoveis" ∧
    V2.validateResponse "imoveis." = some "imoveis" ∧
    V2.validateResponse ("imoveis" ++ ". " ++ "porque o item e uma casa") =
      some "imoveis" :=
  ⟨C6_response_normalization.1 "imoveis" (by decide),
   C6_response_normalization.2.1 ("imovel", "imoveis") (by decide),
   C6_response_normalization.2.2.1 "imoveis" (by decide),
   C6_response_normalization.2.2.2.2 "imoveis" (by decide) "porque o item e uma casa"⟩

end Scraper
